import Mathlib

/-!
Shallow embedding of the Informix database service core: the JDBC subprocess
execution bridge (`src/db/connection.js`, functions `simpleQuery` and
`execute`) and the caching service layer
(`src/services/DatabaseService.js`).  Pure control flow is translated
function by function; the child process's observable behaviour (exit codes,
captured streams) and the JavaScript `JSON.parse` builtin are modelled as
explicit inputs.
-/

/-- A row is an ordered association of column names to values that are
either null (`none`) or text (`some s`), matching the bridge's
record-array encoding. -/
abbrev Row := List (String × Option String)

/-- A result set is an ordered sequence of rows. -/
abbrev ResultSet := List Row

/-- Outcome of a write statement, mirroring the JSON object
`\x7b"rowsAffected": n, "success": b\x7d` printed by the generated
`InformixExecute` program. -/
structure WriteOutcome where
  rowsAffected : Int
  success : Bool
deriving DecidableEq, Repr

/-- Errors raised by the bridge: compile failure, run failure (non-zero
exit or sentinel-tagged stderr) and decode failure, mirroring the
`reject(new Error(...))` sites in `simpleQuery` and `execute`. -/
inductive BridgeError where
  | compileError (diag : String)
  | runError (msg : String)
  | decodeError (msg : String)
deriving DecidableEq, Repr

/-- Models the JavaScript string disjunction `a || b`: the empty string is
the only falsy string, so the result is `b` exactly when `a` is empty. -/
def jsOr (a b : String) : String :=
  if a = "" then b else a

/-- Models `String.prototype.trim`: strips leading and trailing
whitespace. -/
def jsTrim (s : String) : String :=
  ⟨(((s.data.dropWhile Char.isWhitespace).reverse.dropWhile
      Char.isWhitespace).reverse)⟩

/-- Whether the character list `s` starts with the pattern `pat`. -/
def listStartsWith : List Char → List Char → Bool
  | [], _ => true
  | _ :: _, [] => false
  | p :: ps, c :: cs => p = c && listStartsWith ps cs

/-- Whether the pattern occurs as a contiguous run inside `s`; models the
JavaScript `String.prototype.includes`. -/
def listOccurs (pat : List Char) : List Char → Bool
  | [] => listStartsWith pat []
  | c :: cs => listStartsWith pat (c :: cs) || listOccurs pat cs

/-- Models `stderr.includes("ERROR:")`, the sentinel test both run-close
handlers apply to the child's standard error. -/
def stderrHasSentinel (s : String) : Bool :=
  listOccurs "ERROR:".data s.data

/-- The default JSON text substituted for an empty stdout on the write
path: `JSON.parse(stdout.trim() || defaultOutcomeJson)`. -/
def defaultOutcomeJson : String :=
  "\x7b\"rowsAffected\":0,\"success\":true\x7d"

/-- The `run.on(close)` handler of `InformixConnection.simpleQuery`:
reject on non-zero exit or sentinel-tagged stderr; otherwise parse
`stdout.trim() || "[]"` (trim modelled by `jsTrim`), rejecting with `Failed to parse results` when
parsing throws.  `parse` stands for the JavaScript `JSON.parse` builtin,
returning `none` where `JSON.parse` would throw. -/
def runCloseQuery (parse : String → Option ResultSet) (code : Int)
    (stdout stderr : String) : Except BridgeError ResultSet :=
  if code ≠ 0 ∨ stderrHasSentinel stderr = true then
    Except.error (BridgeError.runError (jsOr stderr "Query failed"))
  else
    match parse (jsOr (jsTrim stdout) "[]") with
    | some rows => Except.ok rows
    | none => Except.error (BridgeError.decodeError "Failed to parse results")

/-- The `run.on(close)` handler of `InformixConnection.execute`: reject on
non-zero exit or sentinel-tagged stderr; otherwise parse
`stdout.trim() || defaultOutcomeJson`, and when parsing throws, resolve
with the literal default `\x7b rowsAffected: 0, success: true \x7d`. -/
def runCloseExecute (parse : String → Option WriteOutcome) (code : Int)
    (stdout stderr : String) : Except BridgeError WriteOutcome :=
  if code ≠ 0 ∨ stderrHasSentinel stderr = true then
    Except.error (BridgeError.runError (jsOr stderr "Execute failed"))
  else
    match parse (jsOr (jsTrim stdout) defaultOutcomeJson) with
    | some o => Except.ok o
    | none => Except.ok ⟨0, true⟩

/-- A concrete stand-in for `JSON.parse` on the read path that accepts
exactly the text `[]`; used to instantiate counterexamples and witnesses
at inputs on which `JSON.parse` would throw. -/
def parseRowsStub : String → Option ResultSet :=
  fun s => if s = "[]" then some [] else none

/-- A concrete stand-in for `JSON.parse` on the write path that accepts
exactly the default outcome text; any other input is unparseable. -/
def parseOutcomeStub : String → Option WriteOutcome :=
  fun s => if s = defaultOutcomeJson then some ⟨0, true⟩ else none

/-- Doubles every backslash: the first replace of
`sql.replace(/\\/g, "\\\\")` in `simpleQuery` and `execute`, acting
character by character. -/
def escBackslash : List Char → List Char
  | [] => []
  | c :: cs =>
      if c = '\\' then '\\' :: '\\' :: escBackslash cs
      else c :: escBackslash cs

/-- Escapes every double quote: the second replace,
`.replace(/"/g, "\\\"")`, acting character by character. -/
def escQuote : List Char → List Char
  | [] => []
  | c :: cs =>
      if c = '"' then '\\' :: '"' :: escQuote cs
      else c :: escQuote cs

/-- The statement-embedding escape used by both `simpleQuery` and
`execute`: double every backslash first, then escape every quote. -/
def escapeSql (s : List Char) : List Char :=
  escQuote (escBackslash s)

/-- Strict reading of a string-literal body: every backslash must begin a
two-character escape (`\\` or `\"`), an unescaped double quote is
rejected (it would terminate the literal early), and each escape is
decoded back to the character it denotes.  `some` means the body is a
syntactically valid literal body whose decoding is the returned text. -/
def unescapeLit : List Char → Option (List Char)
  | [] => some []
  | '\\' :: c :: cs =>
      if c = '\\' ∨ c = '"' then (unescapeLit cs).map (fun t => c :: t)
      else none
  | '\\' :: [] => none
  | c :: cs =>
      if c = '"' then none
      else (unescapeLit cs).map (fun t => c :: t)

/-- Models `path.join(dir, name)` for a POSIX temp directory without a
trailing separator, as used for every ephemeral artifact path. -/
def pathJoin (d f : String) : String :=
  ⟨d.data ++ '/' :: f.data⟩

/-- The two bridge operations: `simpleQuery` (read) and `execute`
(write). -/
inductive BridgeOp where
  | readOp
  | writeOp
deriving DecidableEq, Repr

/-- Base name of the generated source file: the source hard-codes
`InformixQuery.java` for reads and `InformixExecute.java` for writes. -/
def sourceBasename : BridgeOp → String
  | BridgeOp.readOp => "InformixQuery.java"
  | BridgeOp.writeOp => "InformixExecute.java"

/-- Base name of the compiled class file produced by the compile step. -/
def classBasename : BridgeOp → String
  | BridgeOp.readOp => "InformixQuery.class"
  | BridgeOp.writeOp => "InformixExecute.class"

/-- Generated-source path of a bridge call.  `callId` identifies which
in-flight call is asking; the source computes the path from the temp
directory and the operation kind alone, so the result never depends on
it. -/
def sourcePathOfCall (tempDir : String) (op : BridgeOp) (callId : Nat) : String :=
  pathJoin tempDir (sourceBasename op)

/-- Compiled-class path of a bridge call; like `sourcePathOfCall`, the
source ignores which call (`callId`) is asking. -/
def classPathOfCall (tempDir : String) (op : BridgeOp) (callId : Nat) : String :=
  pathJoin tempDir (classBasename op)

/-- Observable behaviour of the two child processes of one bridge call:
the compile step's exit code and diagnostics, and the run step's exit
code and captured streams. -/
structure PhaseOutcome where
  compileExit : Int
  compileErr : String
  runExit : Int
  runOut : String
  runErr : String
deriving DecidableEq, Repr

/-- Removes every occurrence of path `p` from the file list; models a
successful `fs.unlinkSync(p)` (the surrounding empty `catch` only means a
deletion failure does not alter control flow). -/
def removePath (p : String) : List String → List String
  | [] => []
  | q :: rest => if q = p then removePath p rest else q :: removePath p rest

/-- Whole-call model of `InformixConnection.simpleQuery` over an abstract
file system (a list of existing paths): write the generated source, stop
at a failed compile, otherwise let `javac` produce the class, run, clean
up both artifacts in the `run.on(close)` handler, and decode via
`runCloseQuery`.  Returns the settled promise and the final file
system. -/
def simpleQueryBridge (parse : String → Option ResultSet) (tempDir : String)
    (ph : PhaseOutcome) (fsys : List String) :
    Except BridgeError ResultSet × List String :=
  let jf := pathJoin tempDir "InformixQuery.java"
  let cf := pathJoin tempDir "InformixQuery.class"
  let fsys1 := jf :: fsys
  if ph.compileExit ≠ 0 then
    (Except.error (BridgeError.compileError ("Compilation failed: " ++ ph.compileErr)),
     fsys1)
  else
    let fsys2 := cf :: fsys1
    let fsys3 := removePath cf (removePath jf fsys2)
    (runCloseQuery parse ph.runExit ph.runOut ph.runErr, fsys3)

/-- Whole-call model of `InformixConnection.execute`, structured exactly
like `simpleQueryBridge` but over the `InformixExecute` artifacts and the
write-outcome decoder. -/
def executeBridge (parse : String → Option WriteOutcome) (tempDir : String)
    (ph : PhaseOutcome) (fsys : List String) :
    Except BridgeError WriteOutcome × List String :=
  let jf := pathJoin tempDir "InformixExecute.java"
  let cf := pathJoin tempDir "InformixExecute.class"
  let fsys1 := jf :: fsys
  if ph.compileExit ≠ 0 then
    (Except.error (BridgeError.compileError ("Compilation failed: " ++ ph.compileErr)),
     fsys1)
  else
    let fsys2 := cf :: fsys1
    let fsys3 := removePath cf (removePath jf fsys2)
    (runCloseExecute parse ph.runExit ph.runOut ph.runErr, fsys3)

/-- A cache entry as stored by `DatabaseService._setCache`: the result
rows and the insertion timestamp (`Date.now()`). -/
structure CacheEntry where
  data : ResultSet
  timestamp : Int
deriving DecidableEq, Repr

/-- State of the `DatabaseService` singleton that the claims observe: the
cache `Map` (an association list keyed by the fingerprint string) and the
default `cacheTimeout` (60000 ms in the constructor). -/
structure ServiceState where
  cache : List (String × CacheEntry)
  cacheTimeout : Int
deriving DecidableEq, Repr

/-- Models `Map.prototype.get`: the binding of `key`, if any. -/
def lookupCache : List (String × CacheEntry) → String → Option CacheEntry
  | [], _ => none
  | (k, e) :: rest, key => if k = key then some e else lookupCache rest key

/-- Models `Map.prototype.delete` on the cache (a no-op when the key is
absent). -/
def deleteCache : List (String × CacheEntry) → String → List (String × CacheEntry)
  | [], _ => []
  | (k, e) :: rest, key =>
      if k = key then deleteCache rest key
      else (k, e) :: deleteCache rest key

/-- Models `Map.prototype.set`: binds `key` to `e`, replacing any
existing binding. -/
def setCacheMap (m : List (String × CacheEntry)) (key : String) (e : CacheEntry) :
    List (String × CacheEntry) :=
  (key, e) :: deleteCache m key

/-- Models `JSON.stringify` on the parameter array (an array of plain
strings in every call site the service receives). -/
def stringifyParams (params : List String) : String :=
  "[" ++ String.intercalate "," (params.map (fun p => "\"" ++ p ++ "\"")) ++ "]"

/-- `DatabaseService._getCacheKey`: the fingerprint is the template
string `sql + ":" + JSON.stringify(params)`. -/
def getCacheKey (sql : String) (params : List String) : String :=
  sql ++ ":" ++ stringifyParams params

/-- `DatabaseService._getFromCache(key)` at current time `now`: return
the stored data while `now - timestamp < this.cacheTimeout`; otherwise
delete the binding and return nothing.  Returns the looked-up value and
the resulting state. -/
def getFromCache (st : ServiceState) (now : Int) (key : String) :
    Option ResultSet × ServiceState :=
  match lookupCache st.cache key with
  | some e =>
      if now - e.timestamp < st.cacheTimeout then (some e.data, st)
      else (none, { st with cache := deleteCache st.cache key })
  | none => (none, { st with cache := deleteCache st.cache key })

/-- `DatabaseService._setCache(key, data)` at current time `now`. -/
def setCacheState (st : ServiceState) (now : Int) (key : String)
    (data : ResultSet) : ServiceState :=
  { st with cache := setCacheMap st.cache key ⟨data, now⟩ }

/-- `DatabaseService.clearCache(key?)`: delete one binding, or with no
argument empty the whole cache. -/
def clearCacheState (st : ServiceState) (key : Option String) : ServiceState :=
  match key with
  | some k => { st with cache := deleteCache st.cache k }
  | none => { st with cache := [] }

/-- The error envelope `ServiceError(message, details, code)` thrown by
the service layer (the wall-clock `timestamp` field carries no
information the claims observe). -/
structure ServiceError where
  message : String
  details : String
  code : String
deriving DecidableEq, Repr

/-- The options object of `DatabaseService.query`; `cacheTtl` is
destructured with default `this.cacheTimeout`, so an absent field is
`none`. -/
structure QueryOptions where
  useCache : Bool := true
  cacheTtl : Option Int := none
deriving DecidableEq, Repr

/-- The per-call ttl the destructuring
`const \x7b useCache = true, cacheTtl = this.cacheTimeout \x7d = options`
computes.  The body of `query` never reads this local again: expiry is
decided inside `_getFromCache` against `this.cacheTimeout`. -/
def resolvedCacheTtl (st : ServiceState) (opts : QueryOptions) : Int :=
  opts.cacheTtl.getD st.cacheTimeout

/-- Service state together with the number of bridge invocations
(`db.simpleQuery` / `db.execute` calls) made so far. -/
structure QueryWorld where
  service : ServiceState
  bridgeCalls : Nat
deriving DecidableEq, Repr

/-- `DatabaseService.query(sql, params, options)` at current time `now`.
`oracle` stands for `db.simpleQuery`: the settled promise of the bridge
for the given sql.  On a cache hit the stored rows return with
`fromCache = true` (a stored empty array is truthy in JavaScript, hence
still a hit); on a miss the bridge is invoked, a success is stored when
caching is on, and a failure is wrapped in a `QUERY_ERROR` envelope. -/
def queryCall (oracle : String → Except String ResultSet) (w : QueryWorld)
    (now : Int) (sql : String) (params : List String) (opts : QueryOptions) :
    Except ServiceError (ResultSet × Bool) × QueryWorld :=
  let key := getCacheKey sql params
  if opts.useCache then
    match getFromCache w.service now key with
    | (some data, st1) => (Except.ok (data, true), { w with service := st1 })
    | (none, st1) =>
        match oracle sql with
        | Except.ok data =>
            (Except.ok (data, false),
             { service := setCacheState st1 now key data,
               bridgeCalls := w.bridgeCalls + 1 })
        | Except.error msg =>
            (Except.error ⟨"Query failed", msg, "QUERY_ERROR"⟩,
             { service := st1, bridgeCalls := w.bridgeCalls + 1 })
  else
    match oracle sql with
    | Except.ok data =>
        (Except.ok (data, false), { w with bridgeCalls := w.bridgeCalls + 1 })
    | Except.error msg =>
        (Except.error ⟨"Query failed", msg, "QUERY_ERROR"⟩,
         { w with bridgeCalls := w.bridgeCalls + 1 })

/-- `DatabaseService.execute(sql)`.  `oracle` stands for `db.execute`.
On bridge success the whole cache is cleared and
`\x7b success: true, result \x7d` is returned; on failure an
`EXECUTE_ERROR` envelope is thrown and the cache is left alone. -/
def executeCall (oracle : String → Except String WriteOutcome) (w : QueryWorld)
    (sql : String) : Except ServiceError (Bool × WriteOutcome) × QueryWorld :=
  match oracle sql with
  | Except.ok r =>
      (Except.ok (true, r),
       { service := clearCacheState w.service none,
         bridgeCalls := w.bridgeCalls + 1 })
  | Except.error msg =>
      (Except.error ⟨"Execute failed", msg, "EXECUTE_ERROR"⟩,
       { w with bridgeCalls := w.bridgeCalls + 1 })

/-- Runs a sequence of identical `query` calls, one per listed time,
threading the world and collecting each call's result. -/
def runQuerySeq (oracle : String → Except String ResultSet) (sql : String)
    (params : List String) (opts : QueryOptions) :
    List Int → QueryWorld → QueryWorld × List (Except ServiceError (ResultSet × Bool))
  | [], w => (w, [])
  | t :: ts, w =>
      let step := queryCall oracle w t sql params opts
      let rest := runQuerySeq oracle sql params opts ts step.2
      (rest.1, step.1 :: rest.2)

/-- Evaluation of `unescapeLit` on a plain leading character: anything
other than a backslash or a quote passes through. -/
theorem unescapeLit_plain (c : Char) (hb : c ≠ '\\') (hq : c ≠ '"')
    (cs : List Char) :
    unescapeLit (c :: cs) = (unescapeLit cs).map (fun t => c :: t) := by
  rw [unescapeLit.eq_def]
  split
  · simp_all
  · simp_all
  · simp_all
  · simp_all

/-- Evaluation of `escBackslash` on a cons cell. -/
theorem escBackslash_cons (c : Char) (cs : List Char) :
    escBackslash (c :: cs) =
      if c = '\\' then '\\' :: '\\' :: escBackslash cs
      else c :: escBackslash cs := rfl

/-- Evaluation of `escQuote` on a cons cell. -/
theorem escQuote_cons (c : Char) (cs : List Char) :
    escQuote (c :: cs) =
      if c = '"' then '\\' :: '"' :: escQuote cs
      else c :: escQuote cs := rfl

/-- C9: the embedding escape doubles every backslash first and escapes
every quote second, the escaped text is a syntactically valid string
literal body for every statement text (the strict literal reader accepts
it), and reading the embedded literal back recovers the original
statement exactly — no double escaping. -/
theorem escapeSql_valid_and_roundtrip (s : List Char) :
    escapeSql s = escQuote (escBackslash s) ∧
    unescapeLit (escapeSql s) = some s := by
  refine ⟨rfl, ?_⟩
  induction s with
  | nil => rfl
  | cons c cs ih =>
      by_cases hb : c = '\\'
      · subst hb
        simp only [escapeSql, escBackslash_cons, if_pos rfl] at *
        have hq : ('\\' : Char) ≠ '"' := by decide
        simp only [escQuote_cons, if_neg hq] at *
        simp [unescapeLit, ih]
      · by_cases hq : c = '"'
        · subst hq
          simp only [escapeSql, escBackslash_cons, escQuote_cons,
            if_neg hb, if_pos rfl] at *
          simp [unescapeLit, ih]
        · simp only [escapeSql, escBackslash_cons, escQuote_cons,
            if_neg hb, if_neg hq] at *
          rw [unescapeLit_plain c hb hq, ih]
          rfl

/-- C1 counterexample: a write whose run step succeeds (exit 0, no
sentinel on stderr) with non-empty, unparseable stdout resolves with the
default outcome instead of raising a decode error. -/
theorem executeDecode_counterexample :
    jsTrim "nonsense" ≠ "" ∧
    parseOutcomeStub "nonsense" = none ∧
    stderrHasSentinel "" = false ∧
    runCloseExecute parseOutcomeStub 0 "nonsense" "" =
      Except.ok ⟨0, true⟩ := by
  refine ⟨by decide, by decide, by decide, ?_⟩
  rfl

/-- C1 amended: when the run step succeeds but stdout is non-empty and
not parseable, `execute` resolves with the default outcome
`rowsAffected = 0, success = true` — the write-outcome path silently
assumes success on malformed output (lenient, not strict). -/
theorem executeDecode_lenient_default (parse : String → Option WriteOutcome)
    (code : Int) (stdout stderr : String) (hcode : code = 0)
    (hs : stderrHasSentinel stderr = false) (hne : jsTrim stdout ≠ "")
    (hp : parse (jsTrim stdout) = none) :
    runCloseExecute parse code stdout stderr = Except.ok ⟨0, true⟩ := by
  subst hcode
  simp [runCloseExecute, hs, jsOr, hne, hp]

/-- Witness for the amended C1 theorem at a concrete malformed output. -/
theorem executeDecode_lenient_default_witness :
    runCloseExecute parseOutcomeStub 0 "oops" "" = Except.ok ⟨0, true⟩ :=
  executeDecode_lenient_default parseOutcomeStub 0 "oops" "" rfl
    (by decide) (by decide) (by decide)

/-- C2 counterexample: a read whose child exits 0 with no sentinel but
with malformed, non-empty stdout does not decode to an empty result set;
it rejects with the decode error `Failed to parse results`. -/
theorem queryDecode_counterexample :
    jsTrim "bogus" ≠ "" ∧
    parseRowsStub "bogus" = none ∧
    stderrHasSentinel "" = false ∧
    runCloseQuery parseRowsStub 0 "bogus" "" =
      Except.error (BridgeError.decodeError "Failed to parse results") := by
  refine ⟨by decide, by decide, by decide, ?_⟩
  rfl

/-- C2 amended: on the read path, empty stdout decodes leniently to the
empty result set, but malformed non-empty stdout raises the decode
error — only the empty case degrades to no rows. -/
theorem queryDecode_empty_lenient (parse : String → Option ResultSet)
    (code : Int) (stdout stderr : String) (hcode : code = 0)
    (hs : stderrHasSentinel stderr = false)
    (hp : parse "[]" = some []) :
    (jsTrim stdout = "" → runCloseQuery parse code stdout stderr = Except.ok []) ∧
    (jsTrim stdout ≠ "" → parse (jsTrim stdout) = none →
      runCloseQuery parse code stdout stderr =
        Except.error (BridgeError.decodeError "Failed to parse results")) := by
  subst hcode
  constructor
  · intro he
    simp [runCloseQuery, hs, jsOr, he, hp]
  · intro hne hpn
    simp [runCloseQuery, hs, jsOr, hne, hpn]

/-- Witness for the amended C2 theorem: an empty stdout yields the empty
result set and a concrete malformed stdout yields the decode error. -/
theorem queryDecode_empty_lenient_witness :
    runCloseQuery parseRowsStub 0 "" "" = Except.ok [] ∧
    runCloseQuery parseRowsStub 0 "zzz" "" =
      Except.error (BridgeError.decodeError "Failed to parse results") :=
  ⟨(queryDecode_empty_lenient parseRowsStub 0 "" "" rfl (by decide)
      (by decide)).1 (by decide),
   (queryDecode_empty_lenient parseRowsStub 0 "zzz" "" rfl (by decide)
      (by decide)).2 (by decide) (by decide)⟩

/-- Looking a key up right after deleting it finds nothing. -/
theorem lookupCache_deleteCache (m : List (String × CacheEntry)) (key : String) :
    lookupCache (deleteCache m key) key = none := by
  induction m with
  | nil => rfl
  | cons kv rest ih =>
      obtain ⟨k, e⟩ := kv
      by_cases h : k = key
      · simp [deleteCache, h, ih]
      · simp [deleteCache, lookupCache, h, ih]

/-- C6: a cached entry is returned while its age is strictly below the
cache timeout; once the age reaches the timeout the same lookup returns
nothing and removes the binding from the cache map as a side effect. -/
theorem getFromCache_lazy_expiry (st : ServiceState) (key : String)
    (e : CacheEntry) (now : Int)
    (hlk : lookupCache st.cache key = some e) :
    (st.cacheTimeout ≤ now - e.timestamp →
      getFromCache st now key =
        (none, { st with cache := deleteCache st.cache key }) ∧
      lookupCache (getFromCache st now key).2.cache key = none) ∧
    (now - e.timestamp < st.cacheTimeout →
      getFromCache st now key = (some e.data, st)) := by
  constructor
  · intro hexp
    have hlt : ¬ now - e.timestamp < st.cacheTimeout := not_lt.mpr hexp
    refine ⟨by simp [getFromCache, hlk, hlt], ?_⟩
    simp [getFromCache, hlk, hlt, lookupCache_deleteCache]
  · intro hfresh
    simp [getFromCache, hlk, hfresh]

/-- Witness for the C6 theorem: one entry inserted at time 0 under the
default 60000 ms timeout is gone at exactly 60000 and still served at
59999. -/
theorem getFromCache_lazy_expiry_witness :
    getFromCache ⟨[("k", ⟨[], 0⟩)], 60000⟩ 60000 "k" = (none, ⟨[], 60000⟩) ∧
    lookupCache (getFromCache ⟨[("k", ⟨[], 0⟩)], 60000⟩ 60000 "k").2.cache "k" =
      none ∧
    getFromCache ⟨[("k", ⟨[], 0⟩)], 60000⟩ 59999 "k" =
      (some [], ⟨[("k", ⟨[], 0⟩)], 60000⟩) :=
  ⟨((getFromCache_lazy_expiry ⟨[("k", ⟨[], 0⟩)], 60000⟩ "k" ⟨[], 0⟩ 60000
      (by simp [lookupCache])).1 (by decide)).1,
   ((getFromCache_lazy_expiry ⟨[("k", ⟨[], 0⟩)], 60000⟩ "k" ⟨[], 0⟩ 60000
      (by simp [lookupCache])).1 (by decide)).2,
   (getFromCache_lazy_expiry ⟨[("k", ⟨[], 0⟩)], 60000⟩ "k" ⟨[], 0⟩ 59999
      (by simp [lookupCache])).2 (by decide)⟩

/-- C4: a successful `execute` delegates to the bridge, empties the whole
cache regardless of the statement, and returns the outcome; thereafter
every fingerprint misses. -/
theorem executeCall_clears_whole_cache
    (oracle : String → Except String WriteOutcome) (w : QueryWorld)
    (sql : String) (r : WriteOutcome) (hor : oracle sql = Except.ok r) :
    (executeCall oracle w sql).1 = Except.ok (true, r) ∧
    (executeCall oracle w sql).2.bridgeCalls = w.bridgeCalls + 1 ∧
    (executeCall oracle w sql).2.service.cache = [] ∧
    ∀ key now, (getFromCache (executeCall oracle w sql).2.service now key).1 =
      none := by
  simp [executeCall, hor, clearCacheState, getFromCache, lookupCache, deleteCache]

/-- Witness for the C4 theorem: an `execute` on a world holding one
cached fingerprint leaves an empty cache and a missing fingerprint. -/
theorem executeCall_clears_whole_cache_witness :
    (executeCall (fun _ => Except.ok ⟨1, true⟩)
        ⟨⟨[("k", ⟨[], 0⟩)], 60000⟩, 5⟩ "DELETE FROM t").1 =
      Except.ok (true, ⟨1, true⟩) ∧
    (executeCall (fun _ => Except.ok ⟨1, true⟩)
        ⟨⟨[("k", ⟨[], 0⟩)], 60000⟩, 5⟩ "DELETE FROM t").2.bridgeCalls = 6 ∧
    (executeCall (fun _ => Except.ok ⟨1, true⟩)
        ⟨⟨[("k", ⟨[], 0⟩)], 60000⟩, 5⟩ "DELETE FROM t").2.service.cache = [] ∧
    ∀ key now,
      (getFromCache
        (executeCall (fun _ => Except.ok ⟨1, true⟩)
          ⟨⟨[("k", ⟨[], 0⟩)], 60000⟩, 5⟩ "DELETE FROM t").2.service now key).1 =
      none :=
  executeCall_clears_whole_cache (fun _ => Except.ok ⟨1, true⟩)
    ⟨⟨[("k", ⟨[], 0⟩)], 60000⟩, 5⟩ "DELETE FROM t" ⟨1, true⟩ rfl

/-- A `query` on an empty cache misses, invokes the bridge once and
stores the fetched rows under the fingerprint with the call's
timestamp. -/
theorem queryCall_first_miss (oracle : String → Except String ResultSet)
    (sql : String) (params : List String) (cttl : Option Int)
    (data : ResultSet) (t0 ttl : Int) (hor : oracle sql = Except.ok data) :
    queryCall oracle ⟨⟨[], ttl⟩, 0⟩ t0 sql params ⟨true, cttl⟩ =
      (Except.ok (data, false),
       ⟨⟨[(getCacheKey sql params, ⟨data, t0⟩)], ttl⟩, 1⟩) := by
  simp [queryCall, getFromCache, lookupCache, deleteCache, setCacheState,
    setCacheMap, hor]

/-- A `query` against a cache holding exactly its fingerprint, while the
entry is fresh, returns the stored rows with `fromCache = true` and
changes nothing — in particular the bridge-call counter stays put. -/
theorem queryCall_fresh_hit (oracle : String → Except String ResultSet)
    (sql : String) (params : List String) (cttl : Option Int)
    (data : ResultSet) (t0 ttl : Int) (n : Nat) (τ : Int)
    (h : τ - t0 < ttl) :
    queryCall oracle ⟨⟨[(getCacheKey sql params, ⟨data, t0⟩)], ttl⟩, n⟩ τ sql
        params ⟨true, cttl⟩ =
      (Except.ok (data, true),
       ⟨⟨[(getCacheKey sql params, ⟨data, t0⟩)], ttl⟩, n⟩) := by
  simp [queryCall, getFromCache, lookupCache, h]

/-- Running any number of repeat calls against the freshly stored entry
produces only hits and leaves the world untouched. -/
theorem runQuerySeq_all_hits (oracle : String → Except String ResultSet)
    (sql : String) (params : List String) (cttl : Option Int)
    (data : ResultSet) (t0 ttl : Int) (n : Nat) (ts : List Int)
    (hts : ∀ τ ∈ ts, τ - t0 < ttl) :
    runQuerySeq oracle sql params ⟨true, cttl⟩ ts
        ⟨⟨[(getCacheKey sql params, ⟨data, t0⟩)], ttl⟩, n⟩ =
      (⟨⟨[(getCacheKey sql params, ⟨data, t0⟩)], ttl⟩, n⟩,
       ts.map (fun _ => Except.ok (data, true))) := by
  induction ts with
  | nil => rfl
  | cons τ ts ih =>
      have hτ : τ - t0 < ttl := hts τ (by simp)
      have hrest : ∀ τ' ∈ ts, τ' - t0 < ttl := fun τ' h' => hts τ' (by simp [h'])
      simp [runQuerySeq,
        queryCall_fresh_hit oracle sql params cttl data t0 ttl n τ hτ, ih hrest]

/-- C5: starting from an empty cache, `N` identical cached `query` calls
whose times all stay within the ttl window of the first call invoke the
bridge exactly once; the first call misses and each of the `N − 1`
repeats returns the stored rows with `fromCache = true`. -/
theorem query_idempotent_within_ttl (oracle : String → Except String ResultSet)
    (sql : String) (params : List String) (cttl : Option Int)
    (data : ResultSet) (ttl t0 : Int) (ts : List Int)
    (hor : oracle sql = Except.ok data)
    (hts : ∀ τ ∈ ts, τ - t0 < ttl) :
    (runQuerySeq oracle sql params ⟨true, cttl⟩ (t0 :: ts)
        ⟨⟨[], ttl⟩, 0⟩).1.bridgeCalls = 1 ∧
    (runQuerySeq oracle sql params ⟨true, cttl⟩ (t0 :: ts)
        ⟨⟨[], ttl⟩, 0⟩).2 =
      Except.ok (data, false) :: ts.map (fun _ => Except.ok (data, true)) := by
  have h1 := queryCall_first_miss oracle sql params cttl data t0 ttl hor
  have h2 := runQuerySeq_all_hits oracle sql params cttl data t0 ttl 1 ts hts
  constructor
  · simp [runQuerySeq, h1, h2]
  · simp [runQuerySeq, h1, h2]

/-- Witness for the C5 theorem: three identical calls at 0, 10 and 20 ms
under a 60000 ms ttl make one bridge call and two cache hits. -/
theorem query_idempotent_within_ttl_witness :
    (runQuerySeq (fun _ => Except.ok [[("n", some "1")]]) "SELECT 1 FROM t" []
        ⟨true, none⟩ [0, 10, 20] ⟨⟨[], 60000⟩, 0⟩).1.bridgeCalls = 1 ∧
    (runQuerySeq (fun _ => Except.ok [[("n", some "1")]]) "SELECT 1 FROM t" []
        ⟨true, none⟩ [0, 10, 20] ⟨⟨[], 60000⟩, 0⟩).2 =
      [Except.ok ([[("n", some "1")]], false),
       Except.ok ([[("n", some "1")]], true),
       Except.ok ([[("n", some "1")]], true)] :=
  query_idempotent_within_ttl (fun _ => Except.ok [[("n", some "1")]])
    "SELECT 1 FROM t" [] none [[("n", some "1")]] 60000 0 [10, 20] rfl
    (by decide)

/-- C10: a successful query returning zero rows stores the empty array
under its fingerprint like any other result, and a repeat of the same
cached query within the ttl window returns that empty array with
`fromCache = true` — an empty cached result set is not a miss. -/
theorem empty_result_cached_hit (oracle : String → Except String ResultSet)
    (sql : String) (params : List String) (ttl t0 τ : Int)
    (hor : oracle sql = Except.ok ([] : ResultSet))
    (hfresh : τ - t0 < ttl) :
    lookupCache
        ((queryCall oracle ⟨⟨[], ttl⟩, 0⟩ t0 sql params ⟨true, none⟩).2).service.cache
        (getCacheKey sql params) = some ⟨[], t0⟩ ∧
    (queryCall oracle
        ((queryCall oracle ⟨⟨[], ttl⟩, 0⟩ t0 sql params ⟨true, none⟩).2)
        τ sql params ⟨true, none⟩).1 = Except.ok ([], true) := by
  have h1 := queryCall_first_miss oracle sql params none [] t0 ttl hor
  rw [h1]
  constructor
  · simp [lookupCache]
  · simp [queryCall_fresh_hit oracle sql params none [] t0 ttl 1 τ hfresh]

/-- Witness for the C10 theorem at a concrete empty result. -/
theorem empty_result_cached_hit_witness :
    lookupCache
        ((queryCall (fun _ => Except.ok []) ⟨⟨[], 60000⟩, 0⟩ 0 "SELECT 2 FROM t"
            [] ⟨true, none⟩).2).service.cache
        (getCacheKey "SELECT 2 FROM t" []) = some ⟨[], 0⟩ ∧
    (queryCall (fun _ => Except.ok [])
        ((queryCall (fun _ => Except.ok []) ⟨⟨[], 60000⟩, 0⟩ 0 "SELECT 2 FROM t"
            [] ⟨true, none⟩).2)
        30000 "SELECT 2 FROM t" [] ⟨true, none⟩).1 = Except.ok ([], true) :=
  empty_result_cached_hit (fun _ => Except.ok []) "SELECT 2 FROM t" [] 60000 0
    30000 rfl (by decide)

/-- C3: the per-call `cacheTtl` is destructured but never consulted; an
entry whose age (5000 ms) is well past the per-call ttl (1000 ms) is
still served with `fromCache = true`, because `_getFromCache` compares
the age against the default `cacheTimeout` (60000 ms) alone.  The bridge
oracle purposely returns different rows, showing the stale entry, not the
bridge, produced the answer. -/
theorem cacheTtl_override_ignored :
    resolvedCacheTtl
        ⟨[(getCacheKey "SELECT 3 FROM t" [], ⟨[[("n", some "1")]], 0⟩)], 60000⟩
        ⟨true, some 1000⟩ = 1000 ∧
    (1000 : Int) ≤ 5000 - 0 ∧
    (queryCall (fun _ => Except.ok [])
        ⟨⟨[(getCacheKey "SELECT 3 FROM t" [], ⟨[[("n", some "1")]], 0⟩)],
          60000⟩, 0⟩
        5000 "SELECT 3 FROM t" [] ⟨true, some 1000⟩).1 =
      Except.ok ([[("n", some "1")]], true) := by
  refine ⟨rfl, by decide, ?_⟩
  simp [queryCall_fresh_hit (fun _ => Except.ok []) "SELECT 3 FROM t" []
    (some 1000) [[("n", some "1")]] 0 60000 0 5000 (by decide)]

/-- C7 counterexample: two distinct in-flight read calls (call ids 0 and
1) are handed the same generated-source path and the same compiled-class
path — no call-unique identifier enters any artifact path. -/
theorem artifactPaths_shared_between_calls :
    (0 : Nat) ≠ 1 ∧
    sourcePathOfCall "/tmp" BridgeOp.readOp 0 =
      sourcePathOfCall "/tmp" BridgeOp.readOp 1 ∧
    classPathOfCall "/tmp" BridgeOp.readOp 0 =
      classPathOfCall "/tmp" BridgeOp.readOp 1 :=
  ⟨by decide, rfl, rfl⟩

/-- C7 amended: artifact paths are fixed per operation kind — every call
of one kind shares the same source and class paths regardless of call
identity, and only calls of different kinds (a read versus a write) get
distinct paths. -/
theorem artifactPaths_fixed_per_kind (d : String) (i j : Nat) (op : BridgeOp) :
    sourcePathOfCall d op i = sourcePathOfCall d op j ∧
    classPathOfCall d op i = classPathOfCall d op j ∧
    sourcePathOfCall d BridgeOp.readOp i ≠
      sourcePathOfCall d BridgeOp.writeOp j ∧
    classPathOfCall d BridgeOp.readOp i ≠
      classPathOfCall d BridgeOp.writeOp j := by
  refine ⟨rfl, rfl, ?_, ?_⟩
  · intro h
    simp only [sourcePathOfCall, pathJoin, sourceBasename] at h
    exact absurd (List.append_cancel_left (congrArg String.data h)) (by decide)
  · intro h
    simp only [classPathOfCall, pathJoin, classBasename] at h
    exact absurd (List.append_cancel_left (congrArg String.data h)) (by decide)

/-- Membership in `removePath` output implies membership in the input. -/
theorem removePath_subset (x p : String) (l : List String)
    (hx : x ∈ removePath p l) : x ∈ l := by
  induction l with
  | nil => exact hx
  | cons q rest ih =>
      simp only [removePath] at hx
      by_cases h : q = p
      · rw [if_pos h] at hx
        exact List.mem_cons_of_mem q (ih hx)
      · rw [if_neg h] at hx
        rcases List.mem_cons.mp hx with rfl | hx'
        · exact List.mem_cons_self x rest
        · exact List.mem_cons_of_mem q (ih hx')

/-- The removed path itself never survives `removePath`. -/
theorem not_mem_removePath_self (p : String) (l : List String) :
    p ∉ removePath p l := by
  induction l with
  | nil => simp [removePath]
  | cons q rest ih =>
      simp only [removePath]
      by_cases h : q = p
      · rw [if_pos h]; exact ih
      · rw [if_neg h]
        intro hmem
        rcases List.mem_cons.mp hmem with heq | hmem'
        · exact h heq.symm
        · exact ih hmem'

/-- `removePath` introduces no new paths. -/
theorem not_mem_removePath (x p : String) (l : List String) (h : x ∉ l) :
    x ∉ removePath p l :=
  fun hx => h (removePath_subset x p l hx)

/-- C8 counterexample: when the compile step fails, `simpleQuery` rejects
with the compile error while the just-written generated source file is
still present — the cleanup only runs in the run-close handler, which a
compile failure never reaches. -/
theorem cleanup_skipped_on_compile_failure :
    (simpleQueryBridge parseRowsStub "/tmp" ⟨1, "bad source", 0, "", ""⟩ []).1 =
      Except.error (BridgeError.compileError "Compilation failed: bad source") ∧
    pathJoin "/tmp" "InformixQuery.java" ∈
      (simpleQueryBridge parseRowsStub "/tmp" ⟨1, "bad source", 0, "", ""⟩ []).2 := by
  constructor
  · rfl
  · simp [simpleQueryBridge]

/-- C8 amended: whenever the compile step succeeds, both bridge
operations remove their generated source and compiled class before
settling, whatever the run step and the decoder then do (success, run
failure, sentinel stderr or decode error alike); deletion failures never
alter control flow.  Only a compile failure leaves the source file
behind. -/
theorem cleanup_on_every_run_path (parseQ : String → Option ResultSet)
    (parseE : String → Option WriteOutcome) (d : String) (ph : PhaseOutcome)
    (fs0 : List String) (hc : ph.compileExit = 0) :
    pathJoin d "InformixQuery.java" ∉ (simpleQueryBridge parseQ d ph fs0).2 ∧
    pathJoin d "InformixQuery.class" ∉ (simpleQueryBridge parseQ d ph fs0).2 ∧
    pathJoin d "InformixExecute.java" ∉ (executeBridge parseE d ph fs0).2 ∧
    pathJoin d "InformixExecute.class" ∉ (executeBridge parseE d ph fs0).2 := by
  have hne : ¬ ph.compileExit ≠ 0 := by simp [hc]
  refine ⟨?_, ?_, ?_, ?_⟩ <;>
    simp only [simpleQueryBridge, executeBridge, if_neg hne]
  · exact not_mem_removePath _ _ _ (not_mem_removePath_self _ _)
  · exact not_mem_removePath_self _ _
  · exact not_mem_removePath _ _ _ (not_mem_removePath_self _ _)
  · exact not_mem_removePath_self _ _

/-- Witness for the amended C7 theorem at concrete calls 0 and 1 in
`/tmp`. -/
theorem artifactPaths_fixed_per_kind_witness :
    sourcePathOfCall "/tmp" BridgeOp.readOp 0 =
      sourcePathOfCall "/tmp" BridgeOp.readOp 1 ∧
    classPathOfCall "/tmp" BridgeOp.readOp 0 =
      classPathOfCall "/tmp" BridgeOp.readOp 1 ∧
    sourcePathOfCall "/tmp" BridgeOp.readOp 0 ≠
      sourcePathOfCall "/tmp" BridgeOp.writeOp 1 ∧
    classPathOfCall "/tmp" BridgeOp.readOp 0 ≠
      classPathOfCall "/tmp" BridgeOp.writeOp 1 :=
  artifactPaths_fixed_per_kind "/tmp" 0 1 BridgeOp.readOp

/-- Witness for the amended C8 theorem: a successful compile with an
empty starting file system leaves no artifact of either operation
behind. -/
theorem cleanup_on_every_run_path_witness :
    pathJoin "/tmp" "InformixQuery.java" ∉
      (simpleQueryBridge parseRowsStub "/tmp" ⟨0, "", 0, "[]", ""⟩ []).2 ∧
    pathJoin "/tmp" "InformixQuery.class" ∉
      (simpleQueryBridge parseRowsStub "/tmp" ⟨0, "", 0, "[]", ""⟩ []).2 ∧
    pathJoin "/tmp" "InformixExecute.java" ∉
      (executeBridge parseOutcomeStub "/tmp" ⟨0, "", 0, "[]", ""⟩ []).2 ∧
    pathJoin "/tmp" "InformixExecute.class" ∉
      (executeBridge parseOutcomeStub "/tmp" ⟨0, "", 0, "[]", ""⟩ []).2 :=
  cleanup_on_every_run_path parseRowsStub parseOutcomeStub "/tmp"
    ⟨0, "", 0, "[]", ""⟩ [] rfl
